import Mathlib

/-!
Shallow embedding of the crossterm color module
(`src/crossterm_style/color/color.rs`): the `Color` enum and its string
parsing, the `TerminalColor` handle with its optional platform backend,
the `get` factory, and the `paint` / `ObjectStyle` / `StyledObject`
styling layer.  Side effects of the backends are modelled as explicit
event traces.
-/

namespace Crossterm

/-- The 16 colors available for coloring the terminal font
(`enum Color` in the source). -/
inductive Color where
  | Black
  | Red
  | DarkRed
  | Green
  | DarkGreen
  | Yellow
  | DarkYellow
  | Blue
  | DarkBlue
  | Magenta
  | DarkMagenta
  | Cyan
  | DarkCyan
  | Grey
  | White
deriving DecidableEq, Repr

/-- `enum ColorType`: tags a color as fore- or background. -/
inductive ColorType where
  | Background
  | Foreground
deriving DecidableEq, Repr

/-- Model of Rust `str::to_lowercase` (ASCII range, which covers every
pattern the parser matches against): lower-case every character. -/
def to_lowercase (s : String) : String :=
  String.mk (s.data.map Char.toLower)

/-- `impl FromStr for Color` (`type Err = ()`): lower-case the input and
match it against the 16 canonical snake_case names; the catch-all arm
returns `Ok(Color::White)`. -/
def Color.from_str (src : String) : Except Unit Color :=
  let src := to_lowercase src
  match src with
  | "black" => Except.ok Color.Black
  | "red" => Except.ok Color.Red
  | "dark_red" => Except.ok Color.DarkRed
  | "green" => Except.ok Color.Green
  | "dark_green" => Except.ok Color.DarkGreen
  | "yellow" => Except.ok Color.Yellow
  | "dark_yellow" => Except.ok Color.DarkYellow
  | "blue" => Except.ok Color.Blue
  | "dark_blue" => Except.ok Color.DarkBlue
  | "magenta" => Except.ok Color.Magenta
  | "dark_magenta" => Except.ok Color.DarkMagenta
  | "cyan" => Except.ok Color.Cyan
  | "dark_cyan" => Except.ok Color.DarkCyan
  | "grey" => Except.ok Color.Grey
  | "white" => Except.ok Color.White
  | _ => Except.ok Color.White

/-- `impl From<&'a str> for Color`: `src.parse().unwrap_or(Color::White)`. -/
def Color.from_str_slice (src : String) : Color :=
  match Color.from_str src with
  | Except.ok c => c
  | Except.error _ => Color.White

/-- `impl From<String> for Color`: `src.parse().unwrap_or(Color::White)`. -/
def Color.from_string (src : String) : Color :=
  match Color.from_str src with
  | Except.ok c => c
  | Except.error _ => Color.White

/-- The 16 canonical color names matched by the parser. -/
def canonical_color_names : List String :=
  ["black", "red", "dark_red", "green", "dark_green", "yellow",
   "dark_yellow", "blue", "dark_blue", "magenta", "dark_magenta",
   "cyan", "dark_cyan", "grey", "white"]

/-- The canonical name of each color variant, paired with the variant,
exactly as listed in the `match` arms of `from_str`. -/
def canonical_color_table : List (String × Color) :=
  [("black", Color.Black), ("red", Color.Red), ("dark_red", Color.DarkRed),
   ("green", Color.Green), ("dark_green", Color.DarkGreen),
   ("yellow", Color.Yellow), ("dark_yellow", Color.DarkYellow),
   ("blue", Color.Blue), ("dark_blue", Color.DarkBlue),
   ("magenta", Color.Magenta), ("dark_magenta", Color.DarkMagenta),
   ("cyan", Color.Cyan), ("dark_cyan", Color.DarkCyan),
   ("grey", Color.Grey), ("white", Color.White)]

/-- Modelled from the spec: the two concrete `ITerminalColor` backends
(`ANSIColor` on unix, `WinApiColor` on windows) live in source files that
are not part of `src/`; for the handle-plumbing claims only their
identity matters, so each is one opaque variant. -/
inductive ColorBackend where
  | ansi
  | winapi
deriving DecidableEq, Repr

/-- Modelled from the spec: `ANSIColor::new()`, the escape-sequence
backend constructor. -/
def ANSIColor.new : ColorBackend := ColorBackend.ansi

/-- Modelled from the spec: `WinApiColor::new()`, the native-console
backend constructor. -/
def WinApiColor.new : ColorBackend := ColorBackend.winapi

/-- The compile-time platform selecting which `cfg` branch of
`get_color_options` is built.  `unix` and `windows` are the two `cfg`
arms in the source; `unsupported` is modelled from the spec, which calls
"backend unavailable on this platform" a degrade-to-no-op condition for
targets where neither backend can be constructed. -/
inductive Platform where
  | unix
  | windows
  | unsupported
deriving DecidableEq, Repr

/-- `fn get_color_options() -> Option<Box<ITerminalColor>>`: return the
platform backend (`Some(ANSIColor::new())` under `cfg(unix)`,
`Some(WinApiColor::new())` under `cfg(windows)`; `none` models the
spec's unsupported-platform condition). -/
def get_color_options : Platform → Option ColorBackend
  | Platform.unix => some ANSIColor.new
  | Platform.windows => some WinApiColor.new
  | Platform.unsupported => none

/-- Observable effects a backend performs on the terminal; each carries
the backend that performed it so traces show which variant was used. -/
inductive ColorEvent where
  | set_fg (b : ColorBackend) (c : Color)
  | set_bg (b : ColorBackend) (c : Color)
  | reset (b : ColorBackend)
deriving DecidableEq, Repr

/-- `struct TerminalColor { terminal_color: Option<Box<ITerminalColor>> }`. -/
structure TerminalColor where
  terminal_color : Option ColorBackend
deriving DecidableEq, Repr

/-- `TerminalColor::init`: if the backend option is `None`, store
`get_color_options()`; otherwise leave the handle unchanged. -/
def TerminalColor.init (t : TerminalColor) (p : Platform) : TerminalColor :=
  match t.terminal_color with
  | none => { terminal_color := get_color_options p }
  | some _ => t

/-- `TerminalColor::set_fg`: call `init`, then, if a backend is stored,
forward `set_fg(color)` to it; otherwise do nothing.  Returns the updated
handle and the trace of backend effects. -/
def TerminalColor.set_fg (t : TerminalColor) (p : Platform) (color : Color) :
    TerminalColor × List ColorEvent :=
  let t := t.init p
  match t.terminal_color with
  | some b => (t, [ColorEvent.set_fg b color])
  | none => (t, [])

/-- `TerminalColor::set_bg`: call `init`, then, if a backend is stored,
forward `set_bg(color)` to it; otherwise do nothing. -/
def TerminalColor.set_bg (t : TerminalColor) (p : Platform) (color : Color) :
    TerminalColor × List ColorEvent :=
  let t := t.init p
  match t.terminal_color with
  | some b => (t, [ColorEvent.set_bg b color])
  | none => (t, [])

/-- `TerminalColor::reset`: call `init`, then, if a backend is stored,
forward `reset()` to it; otherwise do nothing. -/
def TerminalColor.reset (t : TerminalColor) (p : Platform) :
    TerminalColor × List ColorEvent :=
  let t := t.init p
  match t.terminal_color with
  | some b => (t, [ColorEvent.reset b])
  | none => (t, [])

/-- `fn get() -> Box<TerminalColor>`: build the handle with
`terminal_color: get_color_options()`. -/
def get (p : Platform) : TerminalColor :=
  { terminal_color := get_color_options p }

/-- Modelled from the spec: the text-attribute palette of `ObjectStyle`
("bold, underline, etc. — palette not detailed"); the attribute source
file is not part of `src/`. -/
inductive TextAttribute where
  | bold
  | underline
  | dim
deriving DecidableEq, Repr

/-- Modelled from the spec: `ObjectStyle` holds an optional foreground
color, an optional background color and a list of text attributes; its
source file is not part of `src/`. -/
structure ObjectStyle where
  fg_color : Option Color
  bg_color : Option Color
  attrs : List TextAttribute
deriving DecidableEq, Repr

/-- Modelled from the spec: `ObjectStyle::new()` produces the empty style
(no foreground, no background, no attributes). -/
def ObjectStyle.new : ObjectStyle :=
  { fg_color := none, bg_color := none, attrs := [] }

/-- Modelled from the spec: `StyledObject<D>` pairs a displayable value
with a snapshot of an `ObjectStyle`; its source file is not part of
`src/`. -/
structure StyledObject (D : Type) where
  object_style : ObjectStyle
  content : D

/-- Modelled from the spec: `ObjectStyle::apply_to(value)` wraps the
value with a copy of the current style. -/
def ObjectStyle.apply_to {D : Type} (s : ObjectStyle) (val : D) :
    StyledObject D :=
  { object_style := s, content := val }

/-- `fn paint<D: Display>(val: D) -> StyledObject<D>`:
`ObjectStyle::new().apply_to(val)`. -/
def paint {D : Type} (val : D) : StyledObject D :=
  ObjectStyle.new.apply_to val

/-- Modelled from the spec: `StyledObject::with(Color)` sets/replaces the
foreground color and returns the updated wrapper. -/
def StyledObject.with_color {D : Type} (so : StyledObject D) (c : Color) :
    StyledObject D :=
  { so with object_style := { so.object_style with fg_color := some c } }

/-- Modelled from the spec: `StyledObject::on(Color)` sets/replaces the
background color and returns the updated wrapper. -/
def StyledObject.on {D : Type} (so : StyledObject D) (c : Color) :
    StyledObject D :=
  { so with object_style := { so.object_style with bg_color := some c } }

/-- One piece of rendered output: either literal text or a color
operation performed around it. -/
inductive OutputPiece where
  | text (s : String)
  | apply_fg (c : Color)
  | apply_bg (c : Color)
  | reset_seq
deriving DecidableEq, Repr

/-- Whether a style sets nothing at all. -/
def ObjectStyle.is_unstyled (s : ObjectStyle) : Bool :=
  s.fg_color.isNone && s.bg_color.isNone && s.attrs.isEmpty

/-- Modelled from the spec: rendering a `StyledObject` (its `Display`
impl is not part of `src/`).  If no style is set, emit the bare value's
own textual form and nothing else; otherwise apply the foreground, then
the background, write the value's textual form, then reset.  `toText`
stands for the wrapped value's native `Display` rendering. -/
def StyledObject.render {D : Type} (toText : D → String)
    (so : StyledObject D) : List OutputPiece :=
  if so.object_style.is_unstyled then
    [OutputPiece.text (toText so.content)]
  else
    (match so.object_style.fg_color with
     | some c => [OutputPiece.apply_fg c]
     | none => []) ++
    (match so.object_style.bg_color with
     | some c => [OutputPiece.apply_bg c]
     | none => []) ++
    [OutputPiece.text (toText so.content), OutputPiece.reset_seq]

/-! ### Helper lemmas -/

/-- `Char.ofNat` of a valid code point has that code point as value. -/
theorem char_toNat_ofNat {n : Nat} (h : n.isValidChar) :
    (Char.ofNat n).toNat = n := by
  rw [Char.ofNat, dif_pos h]
  rfl

/-- ASCII lower-casing of a character is idempotent. -/
theorem char_toLower_idem (c : Char) : c.toLower.toLower = c.toLower := by
  unfold Char.toLower
  by_cases h : c.toNat ≥ 65 ∧ c.toNat ≤ 90
  · rw [if_pos h]
    have hv : (c.toNat + 32).isValidChar := Or.inl (by omega)
    have ht : (Char.ofNat (c.toNat + 32)).toNat = c.toNat + 32 :=
      char_toNat_ofNat hv
    rw [ht, if_neg (by omega)]
  · rw [if_neg h, if_neg h]

/-- Lower-casing a string is idempotent. -/
theorem to_lowercase_idem (s : String) :
    to_lowercase (to_lowercase s) = to_lowercase s := by
  unfold to_lowercase
  congr 1
  simp only [List.map_map]
  apply List.map_congr_left
  intro c _
  exact char_toLower_idem c

/-- If the lower-cased input is none of the 16 canonical names, the
parser takes its catch-all arm and returns `Ok(White)`. -/
theorem from_str_of_not_canonical (s : String)
    (h : to_lowercase s ∉ canonical_color_names) :
    Color.from_str s = Except.ok Color.White := by
  unfold Color.from_str
  dsimp only
  split <;> simp_all [canonical_color_names]

/-- Every arm of the parser returns `Ok`. -/
theorem from_str_exists_ok (s : String) :
    ∃ c, Color.from_str s = Except.ok c := by
  unfold Color.from_str
  dsimp only
  split <;> exact ⟨_, rfl⟩

/-- `init` is idempotent in one step. -/
theorem init_init (t : TerminalColor) (p : Platform) :
    (t.init p).init p = t.init p := by
  cases t with
  | mk tc =>
    cases tc with
    | none =>
      cases hg : get_color_options p <;> simp [TerminalColor.init, hg]
    | some b => simp [TerminalColor.init]

/-- `init` leaves a handle that already stores a backend unchanged. -/
theorem init_of_some {t : TerminalColor} {b : ColorBackend}
    (h : t.terminal_color = some b) (p : Platform) : t.init p = t := by
  unfold TerminalColor.init
  rw [h]

/-- If `init` still ends with no backend, the handle was unchanged. -/
theorem init_of_none {t : TerminalColor} {p : Platform}
    (h : (t.init p).terminal_color = none) : t.init p = t := by
  cases t with
  | mk tc =>
    cases tc with
    | none =>
      simp only [TerminalColor.init] at h ⊢
      cases hg : get_color_options p <;> simp_all
    | some b => simp [TerminalColor.init]

/-- The handle returned by `set_fg` is exactly the result of `init`. -/
theorem set_fg_fst (t : TerminalColor) (p : Platform) (c : Color) :
    (t.set_fg p c).1 = t.init p := by
  unfold TerminalColor.set_fg
  dsimp only
  split <;> rfl

/-- The handle returned by `set_bg` is exactly the result of `init`. -/
theorem set_bg_fst (t : TerminalColor) (p : Platform) (c : Color) :
    (t.set_bg p c).1 = t.init p := by
  unfold TerminalColor.set_bg
  dsimp only
  split <;> rfl

/-- The handle returned by `reset` is exactly the result of `init`. -/
theorem reset_fst (t : TerminalColor) (p : Platform) :
    (t.reset p).1 = t.init p := by
  unfold TerminalColor.reset
  dsimp only
  split <;> rfl

/-- With a backend stored after `init`, `set_fg` forwards to it. -/
theorem set_fg_snd_some {t : TerminalColor} {p : Platform}
    {b : ColorBackend} (h : (t.init p).terminal_color = some b) (c : Color) :
    (t.set_fg p c).2 = [ColorEvent.set_fg b c] := by
  unfold TerminalColor.set_fg
  dsimp only
  split <;> simp_all

/-- With a backend stored after `init`, `set_bg` forwards to it. -/
theorem set_bg_snd_some {t : TerminalColor} {p : Platform}
    {b : ColorBackend} (h : (t.init p).terminal_color = some b) (c : Color) :
    (t.set_bg p c).2 = [ColorEvent.set_bg b c] := by
  unfold TerminalColor.set_bg
  dsimp only
  split <;> simp_all

/-- With a backend stored after `init`, `reset` forwards to it. -/
theorem reset_snd_some {t : TerminalColor} {p : Platform}
    {b : ColorBackend} (h : (t.init p).terminal_color = some b) :
    (t.reset p).2 = [ColorEvent.reset b] := by
  unfold TerminalColor.reset
  dsimp only
  split <;> simp_all

/-- With no backend after `init`, `set_fg` emits nothing and returns the
unchanged handle. -/
theorem set_fg_none {t : TerminalColor} {p : Platform}
    (h : (t.init p).terminal_color = none) (c : Color) :
    t.set_fg p c = (t, []) := by
  unfold TerminalColor.set_fg
  dsimp only
  split <;> simp_all [init_of_none h]

/-- With no backend after `init`, `set_bg` emits nothing and returns the
unchanged handle. -/
theorem set_bg_none {t : TerminalColor} {p : Platform}
    (h : (t.init p).terminal_color = none) (c : Color) :
    t.set_bg p c = (t, []) := by
  unfold TerminalColor.set_bg
  dsimp only
  split <;> simp_all [init_of_none h]

/-- With no backend after `init`, `reset` emits nothing and returns the
unchanged handle. -/
theorem reset_none {t : TerminalColor} {p : Platform}
    (h : (t.init p).terminal_color = none) :
    t.reset p = (t, []) := by
  unfold TerminalColor.reset
  dsimp only
  split <;> simp_all [init_of_none h]

/-! ### Claim theorems -/

/-- Claim C1: color parsing from text is total with a lossy fallback —
for every input string that is not (case-insensitively) one of the 16
canonical color names, `Color::from` for both `&str` and `String` inputs
returns `Color::White` and never signals an error. -/
theorem c1_unrecognized_input_gives_white (s : String)
    (h : to_lowercase s ∉ canonical_color_names) :
    Color.from_str_slice s = Color.White ∧
    Color.from_string s = Color.White := by
  have hw := from_str_of_not_canonical s h
  constructor <;> simp [Color.from_str_slice, Color.from_string, hw]

/-- Witness for C1 at the claim's own examples `"not_a_color"`, `""`
and `"RAINBOW"`. -/
theorem c1_witness :
    (to_lowercase "not_a_color" ∉ canonical_color_names ∧
      Color.from_str_slice "not_a_color" = Color.White ∧
      Color.from_string "not_a_color" = Color.White) ∧
    (to_lowercase "" ∉ canonical_color_names ∧
      Color.from_str_slice "" = Color.White ∧
      Color.from_string "" = Color.White) ∧
    (to_lowercase "RAINBOW" ∉ canonical_color_names ∧
      Color.from_str_slice "RAINBOW" = Color.White ∧
      Color.from_string "RAINBOW" = Color.White) :=
  ⟨⟨by decide, c1_unrecognized_input_gives_white "not_a_color" (by decide)⟩,
   ⟨by decide, c1_unrecognized_input_gives_white "" (by decide)⟩,
   ⟨by decide, c1_unrecognized_input_gives_white "RAINBOW" (by decide)⟩⟩

/-- Claim C2, counterexample: the claim says the handle returned by
`get` has an empty backend option at acquisition time; on unix the
returned handle already stores the ANSI backend. -/
theorem c2_counterexample :
    (get Platform.unix).terminal_color = some ColorBackend.ansi ∧
    ¬ (get Platform.unix).terminal_color = none :=
  ⟨rfl, by simp [get, get_color_options, ANSIColor.new]⟩

/-- Claim C2 (amended): `get` constructs the backend eagerly — the
returned handle's backend option equals `get_color_options()` at
acquisition, which is already `Some` (the ANSI backend on unix, the
WinApi backend on windows); no lazy construction is left for the first
color operation on such a handle. -/
theorem c2_get_is_eager :
    (∀ p, (get p).terminal_color = get_color_options p) ∧
    (get Platform.unix).terminal_color = some ANSIColor.new ∧
    (get Platform.windows).terminal_color = some WinApiColor.new :=
  ⟨fun _ => rfl, rfl, rfl⟩

/-- Claim C3: `init` is idempotent — iterating it any positive number of
times equals calling it once; each of `set_fg`, `set_bg` and `reset`
leaves the backend field exactly as one `init` call does; and once the
backend option is `Some`, no `init`, `set_fg`, `set_bg` or `reset` call
replaces or clears it. -/
theorem c3_init_idempotent :
    (∀ (t : TerminalColor) (p : Platform) (n : Nat),
      (fun t => TerminalColor.init t p)^[n + 1] t = t.init p) ∧
    (∀ (t : TerminalColor) (p : Platform) (c : Color),
      ((t.set_fg p c).1).terminal_color = (t.init p).terminal_color ∧
      ((t.set_bg p c).1).terminal_color = (t.init p).terminal_color ∧
      ((t.reset p).1).terminal_color = (t.init p).terminal_color) ∧
    (∀ (t : TerminalColor) (p : Platform) (b : ColorBackend),
      t.terminal_color = some b →
      (t.init p).terminal_color = some b ∧
      ∀ c : Color,
        ((t.set_fg p c).1).terminal_color = some b ∧
        ((t.set_bg p c).1).terminal_color = some b ∧
        ((t.reset p).1).terminal_color = some b) := by
  refine ⟨?_, ?_, ?_⟩
  · intro t p n
    induction n generalizing t with
    | zero => simp
    | succ n ih =>
      rw [Function.iterate_succ_apply, ih]
      exact init_init t p
  · intro t p c
    exact ⟨by rw [set_fg_fst], by rw [set_bg_fst], by rw [reset_fst]⟩
  · intro t p b h
    have hi : t.init p = t := init_of_some h p
    refine ⟨by rw [hi, h], fun c => ⟨?_, ?_, ?_⟩⟩
    · rw [set_fg_fst, hi, h]
    · rw [set_bg_fst, hi, h]
    · rw [reset_fst, hi, h]

/-- Witness for C3 on a handle that already stores the ANSI backend. -/
theorem c3_witness :
    (TerminalColor.mk (some ColorBackend.ansi)).terminal_color =
      some ColorBackend.ansi ∧
    ((TerminalColor.mk (some ColorBackend.ansi)).init
      Platform.unix).terminal_color = some ColorBackend.ansi ∧
    (((TerminalColor.mk (some ColorBackend.ansi)).set_fg Platform.unix
      Color.Red).1).terminal_color = some ColorBackend.ansi :=
  ⟨rfl,
   (c3_init_idempotent.2.2 ⟨some ColorBackend.ansi⟩ Platform.unix
      ColorBackend.ansi rfl).1,
   ((c3_init_idempotent.2.2 ⟨some ColorBackend.ansi⟩ Platform.unix
      ColorBackend.ansi rfl).2 Color.Red).1⟩

/-- Claim C4: `set_fg`, `set_bg` and `reset` first call `init` (the
resulting handle is exactly `init`'s result) and forward the operation to
the stored backend; when no backend is present after `init` each call
is a silent no-op, returning the unchanged handle and emitting no
backend event and no error. -/
theorem c4_ops_init_then_forward (t : TerminalColor) (p : Platform)
    (c : Color) :
    ((t.set_fg p c).1 = t.init p ∧ (t.set_bg p c).1 = t.init p ∧
      (t.reset p).1 = t.init p) ∧
    (∀ b : ColorBackend, (t.init p).terminal_color = some b →
      (t.set_fg p c).2 = [ColorEvent.set_fg b c] ∧
      (t.set_bg p c).2 = [ColorEvent.set_bg b c] ∧
      (t.reset p).2 = [ColorEvent.reset b]) ∧
    ((t.init p).terminal_color = none →
      t.set_fg p c = (t, []) ∧ t.set_bg p c = (t, []) ∧
      t.reset p = (t, [])) := by
  refine ⟨⟨set_fg_fst t p c, set_bg_fst t p c, reset_fst t p⟩, ?_, ?_⟩
  · intro b hb
    exact ⟨set_fg_snd_some hb c, set_bg_snd_some hb c, reset_snd_some hb⟩
  · intro hn
    exact ⟨set_fg_none hn c, set_bg_none hn c, reset_none hn⟩

/-- Witness for C4: forwarding on a unix handle that stores the ANSI
backend, and the silent no-op on a backend-less handle on a platform
where no backend can be constructed. -/
theorem c4_witness :
    ((TerminalColor.mk (some ColorBackend.ansi)).set_fg Platform.unix
      Color.Red).2 = [ColorEvent.set_fg ColorBackend.ansi Color.Red] ∧
    (TerminalColor.mk none).set_fg Platform.unsupported Color.Red =
      (TerminalColor.mk none, []) :=
  ⟨((c4_ops_init_then_forward ⟨some ColorBackend.ansi⟩ Platform.unix
      Color.Red).2.1 ColorBackend.ansi rfl).1,
   ((c4_ops_init_then_forward ⟨none⟩ Platform.unsupported
      Color.Red).2.2 rfl).1⟩

/-- Claim C5: parsing is case-insensitive — parsing any string gives the
same result as parsing its lower-cased form, and any string whose
lower-cased form is a canonical name parses to the matching variant. -/
theorem c5_parse_case_insensitive :
    (∀ s : String,
      Color.from_str s = Color.from_str (to_lowercase s)) ∧
    (∀ (s : String) (pr : String × Color), pr ∈ canonical_color_table →
      to_lowercase s = pr.1 → Color.from_str s = Except.ok pr.2) := by
  constructor
  · intro s
    conv_rhs => unfold Color.from_str
    unfold Color.from_str
    rw [to_lowercase_idem]
  · intro s pr hmem heq
    unfold Color.from_str
    dsimp only
    fin_cases hmem <;> simp_all

/-- Witness for C5 at the mixed-case input `"DaRk_ReD"`. -/
theorem c5_witness :
    Color.from_str "DaRk_ReD" = Except.ok Color.DarkRed :=
  c5_parse_case_insensitive.2 "DaRk_ReD" ("dark_red", Color.DarkRed)
    (by decide) (by decide)

/-- Claim C8: `from_str` never returns `Err` — its result is always
`Ok`, with payload exactly the value the `From<&str>` and `From<String>`
conversions return, so their `unwrap_or(Color::White)` fallback is
never exercised. -/
theorem c8_from_str_never_errs (s : String) :
    Color.from_str s = Except.ok (Color.from_str_slice s) ∧
    Color.from_str s = Except.ok (Color.from_string s) ∧
    ∀ e : Unit, Color.from_str s ≠ Except.error e := by
  obtain ⟨c, hc⟩ := from_str_exists_ok s
  refine ⟨?_, ?_, ?_⟩ <;>
    simp [Color.from_str_slice, Color.from_string, hc]

/-- Claim C9: the `String` and `&str` conversions to `Color` agree on
every input string. -/
theorem c9_from_string_eq_from_str_slice (s : String) :
    Color.from_string s = Color.from_str_slice s := rfl

/-- Claim C6: unstyled round-trip — rendering `paint(v)` with no `with`
or `on` call emits exactly the value's own textual form, with no color
operation around it. -/
theorem c6_unstyled_render_is_bare_value {D : Type} (toText : D → String)
    (v : D) :
    StyledObject.render toText (paint v) = [OutputPiece.text (toText v)] :=
  rfl

/-- Claim C7: `paint v` equals `ObjectStyle::new().apply_to(v)` and
wraps `v` in a `StyledObject` whose style is empty — no foreground, no
background, no attributes. -/
theorem c7_paint_is_empty_style_applied {D : Type} (v : D) :
    paint v = ObjectStyle.new.apply_to v ∧
    (paint v).object_style.fg_color = none ∧
    (paint v).object_style.bg_color = none ∧
    (paint v).object_style.attrs = [] :=
  ⟨rfl, rfl, rfl, rfl⟩

/-- Claim C10: on the two supported platform builds `get_color_options`
returns `Some` backend, so a handle produced by `get` always stores a
backend and every `set_fg`, `set_bg` and `reset` call on it takes the
forwarding branch (emitting the backend event), never the silent no-op
branch. -/
theorem c10_supported_platforms_always_forward :
    ((get_color_options Platform.unix).isSome ∧
      (get_color_options Platform.windows).isSome) ∧
    ((get Platform.unix).terminal_color = some ANSIColor.new ∧
      (get Platform.windows).terminal_color = some WinApiColor.new) ∧
    (∀ c : Color,
      ((get Platform.unix).set_fg Platform.unix c).2 =
        [ColorEvent.set_fg ColorBackend.ansi c] ∧
      ((get Platform.unix).set_bg Platform.unix c).2 =
        [ColorEvent.set_bg ColorBackend.ansi c] ∧
      ((get Platform.unix).reset Platform.unix).2 =
        [ColorEvent.reset ColorBackend.ansi] ∧
      ((get Platform.windows).set_fg Platform.windows c).2 =
        [ColorEvent.set_fg ColorBackend.winapi c] ∧
      ((get Platform.windows).set_bg Platform.windows c).2 =
        [ColorEvent.set_bg ColorBackend.winapi c] ∧
      ((get Platform.windows).reset Platform.windows).2 =
        [ColorEvent.reset ColorBackend.winapi]) :=
  ⟨⟨rfl, rfl⟩, ⟨rfl, rfl⟩,
   fun _ => ⟨rfl, rfl, rfl, rfl, rfl, rfl⟩⟩

end Crossterm
